import Mathlib

/-!
Shallow embedding of `main.py` (Priority → Atera ERP integration script)
and verification of its reconciliation logic.

Modelling conventions:
* Python dictionaries fetched from the two HTTP APIs become Lean structures.
  A field modelled as `Option String` is `none` when the key is absent or
  null in the JSON record, and `some s` otherwise; `dict.get(k, '')`
  becomes `Option.getD "" `.
* Python truthiness of a string value (`if x:`) is `none`/`""` ↦ false.
* Python dict literals built by insertion (`m[k] = v`, later insertion
  winning) are association lists built by prepending, looked up with
  `List.lookup` (first hit = most recent insertion).
* HTTP responses are provided by an environment record of functions
  (status codes, returned ids).  `response.raise_for_status()` is modelled
  by a `Bool` "raised" flag that aborts the enclosing loop exactly where
  the Python exception would propagate.
* The traces record the mutating HTTP calls the script issues, in order.
* Wall-clock values (`datetime.utcnow()` as a `CreatedOn` payload field)
  are omitted from payloads; they carry no reconciliation logic.
-/

namespace ErpSync

/-- Python truthiness of an optional string (`None` and `''` are falsy). -/
def truthyStr : Option String → Bool
  | none => false
  | some s => s != ""

/-- Python truthiness filter for an optional integer (`None` and `0` are
falsy): `m.get(k)` followed by `if v:` keeps only a nonzero hit. -/
def truthyNat : Option Nat → Option Nat
  | none => none
  | some n => if n == 0 then none else some n

/-- Status check `response.status_code in [200, 201]` used by every
mutation in `main.py` before deciding whether to `raise_for_status`. -/
def ok2xx (s : Nat) : Bool := s == 200 || s == 201

/-- Embedding of Python's `str.strip()` with no argument: drop leading
and trailing whitespace characters. -/
def pyStrip (s : String) : String :=
  String.mk (((s.data.dropWhile Char.isWhitespace).reverse.dropWhile Char.isWhitespace).reverse)

/-- Embedding of Python's `str.lower()` (the records of this integration
are matched on ASCII-cased names). -/
def pyLower (s : String) : String := String.mk (s.data.map Char.toLower)

/-- Embedding of the Python call `s.replace(' ', '')`: remove every
space character. -/
def pyRemoveSpaces (s : String) : String :=
  String.mk (s.data.filter fun ch => ch != ' ')

/-- Decimal digit characters of a natural number, most significant first,
with structural fuel: the embedding of Python's `str(customer_id)` /
f-string interpolation. -/
def natDigitsAux : Nat → Nat → List Char
  | 0, _ => []
  | fuel + 1, n =>
    if n < 10 then [Nat.digitChar n]
    else natDigitsAux fuel (n / 10) ++ [Nat.digitChar (n % 10)]

/-- Decimal string of a natural number (Python `str(int)` for a
non-negative int); the fuel `n + 1` always suffices. -/
def natToStr (n : Nat) : String := String.mk (natDigitsAux (n + 1) n)

/-! ## Customer sync (`sync_customers`, lines 231–279 of `main.py`) -/

/-- A customer record fetched from Priority (`get_priority_customers`,
also reused by `sync_contracts` for the active-status side lookup).
`CUSTNAME` and `CUSTDES` are indexed directly (`customer['CUSTNAME']`)
by the script, so they are modelled as required fields. `MARH_UDATE` is
the last-modified timestamp: the script never reads it (it is not even
in the `$select` list of `get_priority_customers`). -/
structure PriorityCustomer where
  CUSTNAME : String
  CUSTDES : String
  BUSINESSNUMBER : Option String := none
  DOMAIN : Option String := none
  ADDRESS : Option String := none
  CITY : Option String := none
  STATENAME : Option String := none
  COUNTRY : Option String := none
  PHONE : Option String := none
  FAX : Option String := none
  NOTES : Option String := none
  LINKS : Option String := none
  LONGITUDE : Option Int := none
  LATITUDE : Option Int := none
  ZIP : Option String := none
  STATDES : Option String := none
  MARH_UDATE : Option String := none
deriving DecidableEq

/-- An Atera customer as returned by `get_atera_customers`, pre-enriched
with the `Priority Customer Number` custom field. -/
structure AteraCustomer where
  CustomerID : Nat
  CustomerName : Option String := none
  PriorityCustomerNumber : Option String := none
deriving DecidableEq

/-- The JSON body built by both `create_atera_customer` and
`update_atera_customer` (lines 152–168 and 190–205): copy-if-present,
else empty-string/zero default. -/
structure AteraCustomerPayload where
  CustomerName : String
  BusinessNumber : String
  Domain : String
  Address : String
  City : String
  State : String
  Country : String
  Phone : String
  Fax : String
  Notes : String
  Links : String
  Longitude : Int
  Latitude : Int
  ZipCodeStr : String
deriving DecidableEq

/-- Field mapping from a Priority customer to the outbound Atera body. -/
def customer_payload (c : PriorityCustomer) : AteraCustomerPayload where
  CustomerName := c.CUSTDES
  BusinessNumber := c.BUSINESSNUMBER.getD ""
  Domain := c.DOMAIN.getD ""
  Address := c.ADDRESS.getD ""
  City := c.CITY.getD ""
  State := c.STATENAME.getD ""
  Country := c.COUNTRY.getD ""
  Phone := c.PHONE.getD ""
  Fax := c.FAX.getD ""
  Notes := c.NOTES.getD ""
  Links := c.LINKS.getD ""
  Longitude := c.LONGITUDE.getD 0
  Latitude := c.LATITUDE.getD 0
  ZipCodeStr := c.ZIP.getD ""

/-- Mutating HTTP calls issued during the customer sync. -/
inductive CustAction where
  | putCustomer (customerId : Nat) (payload : AteraCustomerPayload)
  | putCustomField (customerId : Nat) (fieldName : String) (value : String)
  | postCustomer (payload : AteraCustomerPayload)
deriving DecidableEq

/-- Remote responses for the customer sync: status codes of the three
mutation endpoints and the `ActionID` returned by a successful create. -/
structure CustomerSyncEnv where
  updateStatus : Nat → AteraCustomerPayload → Nat
  fieldStatus : Nat → String → Nat
  createStatus : AteraCustomerPayload → Nat
  createActionId : AteraCustomerPayload → Nat

/-- Embedding of `update_atera_customer` (lines 182–215): PUT the field
payload; on non-2xx raise; otherwise PUT the `Priority Customer Number`
custom field with the source `CUSTNAME`, raising on non-2xx.  Returns the
calls issued and whether an exception was raised. -/
def update_atera_customer (env : CustomerSyncEnv) (customerId : Nat)
    (c : PriorityCustomer) : List CustAction × Bool :=
  let p := customer_payload c
  if ok2xx (env.updateStatus customerId p) then
    ([.putCustomer customerId p,
      .putCustomField customerId "Priority Customer Number" c.CUSTNAME],
     !(ok2xx (env.fieldStatus customerId c.CUSTNAME)))
  else ([.putCustomer customerId p], true)

/-- Embedding of `create_atera_customer` (lines 145–180): POST the
payload; on non-2xx raise; otherwise read `ActionID` from the response
and PUT the cross-reference custom field. -/
def create_atera_customer (env : CustomerSyncEnv) (c : PriorityCustomer) :
    List CustAction × Bool :=
  let p := customer_payload c
  if ok2xx (env.createStatus p) then
    let actionId := env.createActionId p
    ([.postCustomer p,
      .putCustomField actionId "Priority Customer Number" c.CUSTNAME],
     !(ok2xx (env.fieldStatus actionId c.CUSTNAME)))
  else ([.postCustomer p], true)

/-- Map from `Priority Customer Number` to Atera `CustomerID`
(`atera_customer_id_map`, lines 242–246): only truthy cross-reference
values are inserted; a later duplicate key overwrites an earlier one. -/
def build_id_map (acs : List AteraCustomer) : List (String × Nat) :=
  acs.foldl
    (fun m c =>
      if truthyStr c.PriorityCustomerNumber then
        (c.PriorityCustomerNumber.getD "", c.CustomerID) :: m
      else m)
    []

/-- Map from trimmed, lower-cased `CustomerName` to Atera `CustomerID`
(`atera_customer_name_map`, lines 248–251). -/
def build_name_map (acs : List AteraCustomer) : List (String × Nat) :=
  acs.foldl
    (fun m c =>
      let nm := pyLower (pyStrip (c.CustomerName.getD ""))
      if nm != "" then (nm, c.CustomerID) :: m else m)
    []

/-- Body of the per-customer loop of `sync_customers` (lines 255–279):
match by cross-reference id first, then by trimmed lower-cased display
name, updating on a hit and creating otherwise. -/
def process_priority_customer (env : CustomerSyncEnv)
    (idMap nameMap : List (String × Nat)) (c : PriorityCustomer) :
    List CustAction × Bool :=
  match truthyNat (idMap.lookup c.CUSTNAME) with
  | some customerId => update_atera_customer env customerId c
  | none =>
    match truthyNat (nameMap.lookup (pyLower (pyStrip c.CUSTDES))) with
    | some customerId => update_atera_customer env customerId c
    | none => create_atera_customer env c

/-- The `for customer in priority_customers` loop of `sync_customers`.
There is no `try`/`except` around the body, so a raised exception stops
the whole loop (flag `true`); otherwise traces concatenate. -/
def customers_loop (env : CustomerSyncEnv)
    (idMap nameMap : List (String × Nat)) :
    List PriorityCustomer → List CustAction × Bool
  | [] => ([], false)
  | c :: rest =>
    let r := process_priority_customer env idMap nameMap c
    if r.2 then (r.1, true)
    else
      let r2 := customers_loop env idMap nameMap rest
      (r.1 ++ r2.1, r2.2)

/-- Embedding of `sync_customers` given the fetched Priority customers
and the enriched Atera customers: build the two lookup maps, then run
the per-customer loop. -/
def sync_customers_model (env : CustomerSyncEnv)
    (ateraCustomers : List AteraCustomer)
    (priorityCustomers : List PriorityCustomer) : List CustAction × Bool :=
  customers_loop env (build_id_map ateraCustomers)
    (build_name_map ateraCustomers) priorityCustomers

/-! ## Contact sync (`sync_contacts`, lines 313–470 of `main.py`) -/

/-- A contact record fetched from Priority (`get_priority_contacts`). -/
structure PriorityContact where
  CUSTNAME : Option String := none
  CUSTDES : Option String := none
  EMAIL : Option String := none
  NAME : Option String := none
  FIRSTNAME : Option String := none
  LASTNAME : Option String := none
  POSITIONDES : Option String := none
  PHONENUM : Option String := none
  CELLPHONE : Option String := none
deriving DecidableEq

/-- An Atera contact as returned by `get_atera_contacts`. -/
structure AteraContact where
  EndUserID : Nat
  CustomerID : Nat
  Firstname : Option String := none
  Lastname : Option String := none
deriving DecidableEq

/-- The JSON body built by `create_atera_contact` / `update_atera_contact`
(lines 423–434 and 456–465).  `Firstname` and `Lastname` use Python's
`x or y` (the raw `NAME` value when the resolved name is the empty
string); the result can be null, hence `Option String`.  The constant
fields (`IsContactPerson`, `InIgnoreMode`, `CreatedOn`) are omitted, and
`CustomerID` (create only) is carried next to the payload in the
outcome. -/
structure ContactPayload where
  Email : String
  Firstname : Option String
  Lastname : Option String
  JobTitle : Option String
  Phone : Option String
  MobilePhone : Option String
deriving DecidableEq

/-- Embedding of `sanitize_phone_number` (lines 68–78): falsy input gives
`None`; otherwise keep only `+`, `-` and digits, and give `None` when no
digit survives. -/
def sanitize_phone_number (phone : Option String) : Option String :=
  match phone with
  | none => none
  | some s =>
    if s == "" then none
    else
      let t := String.mk (s.data.filter fun ch => ch == '+' || ch == '-' || ch.isDigit)
      if t.data.any Char.isDigit then some t else none

/-- Embedding of the name-fallback block of `sync_contacts`
(lines 345–353): trim the three fields; if the last name is empty it
becomes the first name, and if the first name was also empty the first
name becomes the combined `NAME` with the last name left empty. -/
def resolve_contact_name (firstname lastname nm : Option String) :
    String × String :=
  let first := pyStrip (firstname.getD "")
  let last := pyStrip (lastname.getD "")
  if last == "" then
    if first == "" then (pyStrip (nm.getD ""), "")
    else (first, first)
  else (first, last)

/-- Embedding of the synthesized-email expression of `sync_contacts`
(lines 376–377): lower-cased space-stripped concatenation of the resolved
names, then the Atera customer id, at the placeholder domain. -/
def synthesize_email (first last : String) (customerId : Nat) : String :=
  pyLower (pyRemoveSpaces (first ++ last)) ++ natToStr customerId ++ "@example.com"

/-- Payload built by `create_atera_contact` (lines 423–434) from the
contact dict after `sync_contacts` rewrote `FIRSTNAME`/`LASTNAME`/`EMAIL`
with the resolved values and the phone fields with their sanitized
forms. -/
def create_contact_fields (email first last : String)
    (nm positiondes phone mobile : Option String) : ContactPayload where
  Email := email
  Firstname := if first == "" then nm else some first
  Lastname := if last == "" then nm else some last
  JobTitle := positiondes
  Phone := phone
  MobilePhone := mobile

/-- Payload built by `update_atera_contact` (lines 456–465); same field
logic as the create payload. -/
def update_contact_fields (email first last : String)
    (nm positiondes phone mobile : Option String) : ContactPayload where
  Email := email
  Firstname := if first == "" then nm else some first
  Lastname := if last == "" then nm else some last
  JobTitle := positiondes
  Phone := phone
  MobilePhone := mobile

/-- Map `(CustomerID, lower-cased full name) ↦ contact` built from the
Atera contacts (lines 328–334), keeping only truthy customer ids and
nonempty full names. -/
def build_contact_map (acs : List AteraContact) :
    List ((Nat × String) × AteraContact) :=
  acs.foldl
    (fun m ct =>
      let full := pyStrip (pyStrip (ct.Firstname.getD "") ++ " " ++ pyStrip (ct.Lastname.getD ""))
      if ct.CustomerID != 0 && full != "" then
        ((ct.CustomerID, pyLower full), ct) :: m
      else m)
    []

/-- Decision reached for one Priority contact by the body of the
`for contact in priority_contacts` loop of `sync_contacts`. -/
inductive ContactOutcome where
  | skippedNullCustname
  | skippedMissingName
  | skippedNoCustomer
  | updated (endUserId : Nat) (payload : ContactPayload)
  | created (customerId : Nat) (payload : ContactPayload)
deriving DecidableEq

/-- The payload a mutating outcome carries, if any. -/
def ContactOutcome.payload? : ContactOutcome → Option ContactPayload
  | .updated _ p => some p
  | .created _ p => some p
  | _ => none

/-- Body of the per-contact loop of `sync_contacts` (lines 337–396):
reject falsy `CUSTNAME`; resolve names and reject when all name sources
are empty; reject when the owning customer cannot be resolved through the
cross-reference map; otherwise resolve the email (trim+lowercase a truthy
source value, else synthesize one), sanitize the phones, and update the
matched Atera contact or create a new one. -/
def process_priority_contact (custMap : List (String × Nat))
    (contactMap : List ((Nat × String) × AteraContact))
    (c : PriorityContact) : ContactOutcome :=
  if !(truthyStr c.CUSTNAME) then .skippedNullCustname
  else
    let customerId? := truthyNat (custMap.lookup (c.CUSTNAME.getD ""))
    let fl := resolve_contact_name c.FIRSTNAME c.LASTNAME c.NAME
    let nm := pyStrip (c.NAME.getD "")
    if fl.1 == "" && fl.2 == "" && nm == "" then .skippedMissingName
    else
      match customerId? with
      | none => .skippedNoCustomer
      | some customerId =>
        let fullName := pyStrip (fl.1 ++ " " ++ fl.2)
        let existing := contactMap.lookup (customerId, pyLower fullName)
        let email :=
          if truthyStr c.EMAIL then pyLower (pyStrip (c.EMAIL.getD ""))
          else synthesize_email fl.1 fl.2 customerId
        let phone := sanitize_phone_number c.PHONENUM
        let mobile := sanitize_phone_number c.CELLPHONE
        match existing with
        | some ec =>
          .updated ec.EndUserID
            (update_contact_fields email fl.1 fl.2 c.NAME c.POSITIONDES phone mobile)
        | none =>
          .created customerId
            (create_contact_fields email fl.1 fl.2 c.NAME c.POSITIONDES phone mobile)

/-- Header row written by `log_failed_duplicate_email` (line 411). -/
def csv_header : List String := ["CustomerID", "PriorityCustomerID", "EmailAddress"]

/-- Embedding of `log_failed_duplicate_email` (lines 403–413).  The CSV
file state is `none` when the file does not exist yet, `some rows`
otherwise; the function opens in append mode, writes the header only when
the file did not exist, then appends exactly one data row. -/
def log_failed_duplicate_email (file : Option (List (List String)))
    (customerId : Nat) (priorityCustomerId email : String) :
    List (List String) :=
  (match file with
   | none => [csv_header]
   | some rows => rows) ++ [[natToStr customerId, priorityCustomerId, email]]

/-- Remote responses for the contact sync mutations. -/
structure ContactSyncEnv where
  createStatus : Nat → ContactPayload → Nat
  updateStatus : Nat → ContactPayload → Nat

/-- Embedding of `create_atera_contact` (lines 415–446): status 409 logs
the duplicate email to the CSV side channel and returns normally; any
other non-2xx raises; a 2xx leaves the file untouched. -/
def create_atera_contact (env : ContactSyncEnv)
    (file : Option (List (List String))) (customerId : Nat)
    (priorityCustomerId : String) (p : ContactPayload) :
    Option (List (List String)) × Bool :=
  let st := env.createStatus customerId p
  if st == 409 then
    (some (log_failed_duplicate_email file customerId priorityCustomerId p.Email), false)
  else if !(ok2xx st) then (file, true)
  else (file, false)

/-- The `for contact in priority_contacts` loop of `sync_contacts`
(lines 337–400).  The whole body sits in a `try`/`except` that logs and
continues, so every contact in the batch is processed; the CSV file state
threads through the creations.  Returns the final file state and the
per-contact outcomes. -/
def contacts_loop (env : ContactSyncEnv) (custMap : List (String × Nat))
    (contactMap : List ((Nat × String) × AteraContact)) :
    Option (List (List String)) → List PriorityContact →
    Option (List (List String)) × List ContactOutcome
  | file, [] => (file, [])
  | file, c :: rest =>
    let o := process_priority_contact custMap contactMap c
    let file' :=
      match o with
      | .created customerId p =>
        (create_atera_contact env file customerId (c.CUSTNAME.getD "") p).1
      | _ => file
    let r := contacts_loop env custMap contactMap file' rest
    (r.1, o :: r.2)

/-! ## Contract sync (`sync_contracts`, lines 888–962 of `main.py`) -/

/-- A contract record from Priority (`get_priority_contracts`), already
past that function's `UDATE` pull-window filter. -/
structure PriorityContract where
  CUSTNAME : Option String := none
  CUSTDES : Option String := none
  DOCNO : Option String := none
  UDATE : Option String := none
  VALIDDATE : Option String := none
  EXPIRYDATE : Option String := none
  STATDES : Option String := none
  UNI_DESC : Option String := none
deriving DecidableEq

/-- An Atera contract as returned by `get_atera_contracts_for_customer`;
only `ContractID` is read by the sync. -/
structure AteraContract where
  ContractID : Nat
deriving DecidableEq

/-- The `active` flag computed by `create_atera_contract` (line 799):
the contract is inactive exactly when its status is the cancelled code. -/
def contract_is_active (ct : PriorityContract) : Bool :=
  ct.STATDES != some "מבוטל"

/-- The JSON body of `create_atera_contract` (lines 810–823); the
constant fields (`Taxable`, `ContractType`, the retainer sub-object) are
omitted. -/
structure ContractRequest where
  ContractName : String
  CustomerID : Nat
  StartDate : Option String
  EndDate : Option String
  Active : Bool
deriving DecidableEq

/-- Embedding of `create_atera_contract` (lines 787–823) up to the POST:
when the status is the cancelled code the function logs and returns
without issuing any request (`none`); otherwise it builds the request,
falling back to `"Contract " ++ DOCNO` when `UNI_DESC` is falsy. -/
def create_atera_contract_request (customerId : Nat)
    (ct : PriorityContract) : Option ContractRequest :=
  if !(contract_is_active ct) then none
  else
    some
      { ContractName :=
          if truthyStr ct.UNI_DESC then ct.UNI_DESC.getD ""
          else "Contract " ++ ct.DOCNO.getD ""
        CustomerID := customerId
        StartDate := ct.VALIDDATE
        EndDate := ct.EXPIRYDATE
        Active := contract_is_active ct }

/-- Decision reached for one Priority contract by the body of the
`for contract in priority_contracts` loop of `sync_contracts`. -/
inductive ContractOutcome where
  | skippedMissingKeys
  | skippedNoPriorityCustomer
  | skippedInactiveCustomer
  | skippedCancelled
  | skippedNoAteraCustomer
  | skippedExisting (ateraContractId : Nat)
  | created (customerId : Nat)
deriving DecidableEq

/-- Whether the outcome issues a contract creation. -/
def ContractOutcome.isCreated : ContractOutcome → Bool
  | .created _ => true
  | _ => false

/-- Body of the per-contract loop of `sync_contracts` (lines 908–962):
reject falsy `CUSTNAME`/`DOCNO`; look the owning customer up in the
Priority customer map by `CUSTDES` and skip when missing or not in the
active status; skip when the contract status is the cancelled code; skip
when no Atera customer matches the cross-reference map; otherwise fetch
that customer's Atera contracts, read each one's `Priority Contract
Number` custom field until one equals `DOCNO` (skip), and create the
contract when none does. -/
def process_priority_contract (pmap : List (String × PriorityCustomer))
    (cmap : List (String × Nat)) (contractsOf : Nat → List AteraContract)
    (docnoFieldOf : Nat → Option String) (ct : PriorityContract) :
    ContractOutcome :=
  if !(truthyStr ct.CUSTNAME) || !(truthyStr ct.DOCNO) then .skippedMissingKeys
  else
    let docNo := ct.DOCNO.getD ""
    match pmap.lookup (ct.CUSTDES.getD "") with
    | none => .skippedNoPriorityCustomer
    | some pc =>
      if pc.STATDES != some "פעיל" then .skippedInactiveCustomer
      else if ct.STATDES == some "מבוטל" then .skippedCancelled
      else
        match truthyNat (cmap.lookup (ct.CUSTNAME.getD "")) with
        | none => .skippedNoAteraCustomer
        | some customerId =>
          match (contractsOf customerId).find?
              (fun a => docnoFieldOf a.ContractID == some docNo) with
          | some a => .skippedExisting a.ContractID
          | none => .created customerId

/-- Map from `CUSTDES` to the Priority customer record
(`priority_customers_map`, line 894); a later duplicate key overwrites
an earlier one. -/
def build_priority_customer_map (pcs : List PriorityCustomer) :
    List (String × PriorityCustomer) :=
  pcs.foldl (fun m c => (c.CUSTDES, c) :: m) []

/-! ## Pagination loops (`get_atera_customers` lines 101–113,
`get_atera_contacts` lines 296–310, `get_atera_contracts_for_customer`
lines 767–783, `get_atera_tickets` lines 507–538) -/

/-- One page of an Atera list response, with the fields the loops read. -/
structure ApiPage where
  items : List Nat
  totalPages : Nat
  nextLink : Option String
deriving DecidableEq

/-- Pagination loop of `get_atera_customers`: extend, then stop when the
declared total-page count equals the current page or the page is empty.
`none` means the fuel ran out before the loop stopped. -/
def get_atera_customers_pages (pages : Nat → ApiPage) :
    Nat → Nat → List Nat → Option (List Nat)
  | 0, _, _ => none
  | fuel + 1, page, acc =>
    let d := pages page
    let acc2 := acc ++ d.items
    if d.totalPages == page || d.items.isEmpty then some acc2
    else get_atera_customers_pages pages fuel (page + 1) acc2

/-- Pagination loop of `get_atera_contacts`: extend unconditionally and
stop only when `nextLink` is falsy. -/
def get_atera_contacts_pages (pages : Nat → ApiPage) :
    Nat → Nat → List Nat → Option (List Nat)
  | 0, _, _ => none
  | fuel + 1, page, acc =>
    let d := pages page
    let acc2 := acc ++ d.items
    if !(truthyStr d.nextLink) then some acc2
    else get_atera_contacts_pages pages fuel (page + 1) acc2

/-- Pagination loop of `get_atera_contracts_for_customer`: an empty page
stops before extending; otherwise extend and stop when `nextLink` is
falsy. -/
def get_atera_contracts_pages (pages : Nat → ApiPage) :
    Nat → Nat → List Nat → Option (List Nat)
  | 0, _, _ => none
  | fuel + 1, page, acc =>
    let d := pages page
    if d.items.isEmpty then some acc
    else
      let acc2 := acc ++ d.items
      if !(truthyStr d.nextLink) then some acc2
      else get_atera_contracts_pages pages fuel (page + 1) acc2

/-- Pagination loop of `get_atera_tickets`: an empty page stops before
the per-ticket date filter (`keep`) runs; otherwise append the kept
tickets and stop when `nextLink` is falsy. -/
def get_atera_tickets_pages (keep : Nat → Bool) (pages : Nat → ApiPage) :
    Nat → Nat → List Nat → Option (List Nat)
  | 0, _, _ => none
  | fuel + 1, page, acc =>
    let d := pages page
    if d.items.isEmpty then some acc
    else
      let acc2 := acc ++ d.items.filter keep
      if !(truthyStr d.nextLink) then some acc2
      else get_atera_tickets_pages keep pages fuel (page + 1) acc2

/-! ## Helper lemmas -/

/-- Decoder of a decimal digit string, used to invert `natToStr`. -/
def decodeDigits (l : List Char) : Nat :=
  l.foldl (fun a ch => a * 10 + (ch.toNat - 48)) 0

theorem digitChar_decode (n : Nat) (h : n < 10) :
    (Nat.digitChar n).toNat - 48 = n := by
  interval_cases n <;> rfl

theorem foldl_natDigitsAux (fuel : Nat) :
    ∀ n a, n < fuel →
      List.foldl (fun a ch => a * 10 + (ch.toNat - 48)) a (natDigitsAux fuel n) =
        a * 10 ^ (natDigitsAux fuel n).length + n := by
  induction fuel with
  | zero => intro n a h; omega
  | succ fuel ih =>
    intro n a h
    by_cases h10 : n < 10
    · simp [natDigitsAux, h10, digitChar_decode n h10]
    · have hdiv : n / 10 < fuel :=
        lt_of_lt_of_le (Nat.div_lt_self (by omega) (by omega)) (by omega)
      simp only [natDigitsAux, if_neg h10]
      rw [List.foldl_append, ih (n / 10) a hdiv]
      simp only [List.foldl, List.length_append, List.length_cons, List.length_nil]
      rw [digitChar_decode (n % 10) (Nat.mod_lt n (by omega))]
      have hmod : 10 * (n / 10) + n % 10 = n := Nat.div_add_mod n 10
      calc (a * 10 ^ (natDigitsAux fuel (n / 10)).length + n / 10) * 10 + n % 10
          = a * (10 ^ (natDigitsAux fuel (n / 10)).length * 10) +
              (10 * (n / 10) + n % 10) := by ring
        _ = a * 10 ^ ((natDigitsAux fuel (n / 10)).length + (0 + 1)) + n := by
              rw [← pow_succ, hmod]

theorem decodeDigits_natToStr (n : Nat) : decodeDigits (natToStr n).data = n := by
  have h := foldl_natDigitsAux (n + 1) n 0 (Nat.lt_succ_self n)
  simpa [decodeDigits, natToStr] using h

theorem natToStr_injective {m n : Nat} (h : natToStr m = natToStr n) : m = n := by
  have h2 := congrArg (fun s => decodeDigits s.data) h
  simpa [decodeDigits_natToStr] using h2

/-! ## Theorems about the contact sync -/

/-- C8: for every source contact, if the last name is empty the resolved
last name becomes the first name, and if the first name was also empty
the resolved first name becomes the combined `NAME` field with the last
name left empty; a contact whose first name, last name and combined name
are all empty is rejected before any mutation.  In particular
`(first='', last='', name='Alice')` resolves to `('Alice', '')` and
`(first='Alice', last='')` resolves to `('Alice', 'Alice')`. -/
theorem C8_contact_name_fallback :
    resolve_contact_name (some "") (some "") (some "Alice") = ("Alice", "") ∧
    (∀ nm : Option String,
      resolve_contact_name (some "Alice") (some "") nm = ("Alice", "Alice")) ∧
    (∀ (custMap : List (String × Nat))
       (contactMap : List ((Nat × String) × AteraContact)) (c : PriorityContact),
       pyStrip (c.FIRSTNAME.getD "") = "" →
       pyStrip (c.LASTNAME.getD "") = "" →
       pyStrip (c.NAME.getD "") = "" →
       (process_priority_contact custMap contactMap c).payload? = none ∧
       (truthyStr c.CUSTNAME = true →
         process_priority_contact custMap contactMap c = .skippedMissingName)) := by
  refine ⟨by decide, ?_, ?_⟩
  · intro nm
    simp [resolve_contact_name, show pyStrip "Alice" = "Alice" from by decide,
      show pyStrip "" = "" from rfl, show ("Alice" : String) ≠ "" from by decide]
  · intro custMap contactMap c h1 h2 h3
    have hres : resolve_contact_name c.FIRSTNAME c.LASTNAME c.NAME = ("", "") := by
      simp [resolve_contact_name, h1, h2, h3]
    by_cases hc : truthyStr c.CUSTNAME
    · constructor
      · simp [process_priority_contact, hc, hres, h3, ContactOutcome.payload?]
      · intro _
        simp [process_priority_contact, hc, hres, h3]
    · constructor
      · simp [process_priority_contact, hc, ContactOutcome.payload?]
      · intro hc2
        exact absurd hc2 hc

/-- C9: for a source contact without email the outbound email is the
lower-cased space-stripped concatenation of the resolved names followed
by the target customer id at the placeholder domain
(`'Alice'/'Alice'` under customer id `1` gives
`'alicealice1@example.com'`); the synthesis is deterministic, and two
different customer ids with the same name give different emails. -/
theorem C9_synthesized_email :
    synthesize_email "Alice" "Alice" 1 = "alicealice1@example.com" ∧
    (∀ (f1 f2 l1 l2 : String) (i1 i2 : Nat), f1 = f2 → l1 = l2 → i1 = i2 →
      synthesize_email f1 l1 i1 = synthesize_email f2 l2 i2) ∧
    (∀ (first last : String) (i j : Nat), i ≠ j →
      synthesize_email first last i ≠ synthesize_email first last j) ∧
    (∀ (custMap : List (String × Nat))
       (contactMap : List ((Nat × String) × AteraContact)) (c : PriorityContact)
       (customerId : Nat) (p : ContactPayload),
       truthyStr c.EMAIL = false →
       truthyNat (custMap.lookup (c.CUSTNAME.getD "")) = some customerId →
       (process_priority_contact custMap contactMap c).payload? = some p →
       p.Email = synthesize_email
         (resolve_contact_name c.FIRSTNAME c.LASTNAME c.NAME).1
         (resolve_contact_name c.FIRSTNAME c.LASTNAME c.NAME).2 customerId) := by
  refine ⟨by decide, ?_, ?_, ?_⟩
  · intro f1 f2 l1 l2 i1 i2 hf hl hi
    rw [hf, hl, hi]
  · intro first last i j hij heq
    apply hij
    have hdata :
        ((pyLower (pyRemoveSpaces (first ++ last))).data ++ (natToStr i).data) ++
            "@example.com".data =
          ((pyLower (pyRemoveSpaces (first ++ last))).data ++ (natToStr j).data) ++
            "@example.com".data :=
      congrArg String.data heq
    have h1 := List.append_cancel_right hdata
    have h2 := List.append_cancel_left h1
    have h3 : natToStr i = natToStr j := congrArg String.mk h2
    exact natToStr_injective h3
  · intro custMap contactMap c customerId p hmail hcid hp
    unfold process_priority_contact at hp
    by_cases hc : truthyStr c.CUSTNAME
    · simp only [hc, Bool.not_true, Bool.false_eq_true, if_false] at hp
      by_cases hmiss :
          ((resolve_contact_name c.FIRSTNAME c.LASTNAME c.NAME).1 == "" &&
            (resolve_contact_name c.FIRSTNAME c.LASTNAME c.NAME).2 == "" &&
            pyStrip (c.NAME.getD "") == "") = true
      · rw [if_pos hmiss] at hp
        simp [ContactOutcome.payload?] at hp
      · rw [if_neg hmiss] at hp
        rw [hcid] at hp
        simp only [hmail, Bool.false_eq_true, if_false] at hp
        rcases hlook : contactMap.lookup (customerId,
            pyLower (pyStrip ((resolve_contact_name c.FIRSTNAME c.LASTNAME c.NAME).1 ++
              " " ++ (resolve_contact_name c.FIRSTNAME c.LASTNAME c.NAME).2))) with _ | ec
        · rw [hlook] at hp
          simp only [ContactOutcome.payload?, Option.some.injEq] at hp
          rw [← hp]
          rfl
        · rw [hlook] at hp
          simp only [ContactOutcome.payload?, Option.some.injEq] at hp
          rw [← hp]
          rfl
    · simp only [hc, Bool.not_false, if_true] at hp
      simp [ContactOutcome.payload?] at hp

/-- C10: for every source contact whose resolved first name is empty but
whose resolved last name is non-empty, the payload sent to the target
(create or update alike) carries the raw combined `NAME` field as
`Firstname` instead of an empty string; the same or-fallback to `NAME`
applies to the `Lastname` field of both payload builders. -/
theorem C10_payload_name_fallback
    (custMap : List (String × Nat))
    (contactMap : List ((Nat × String) × AteraContact))
    (c : PriorityContact) (customerId : Nat)
    (h1 : truthyStr c.CUSTNAME = true)
    (h2 : pyStrip (c.FIRSTNAME.getD "") = "")
    (h3 : pyStrip (c.LASTNAME.getD "") ≠ "")
    (h4 : truthyNat (custMap.lookup (c.CUSTNAME.getD "")) = some customerId) :
    (∃ p, (process_priority_contact custMap contactMap c).payload? = some p ∧
       p.Firstname = c.NAME ∧
       p.Lastname = some (pyStrip (c.LASTNAME.getD ""))) ∧
    (∀ (email last : String) (nm positiondes phone mobile : Option String),
       (create_contact_fields email "" last nm positiondes phone mobile).Firstname = nm ∧
       (update_contact_fields email "" last nm positiondes phone mobile).Firstname = nm ∧
       (create_contact_fields email "" "" nm positiondes phone mobile).Lastname = nm ∧
       (update_contact_fields email "" "" nm positiondes phone mobile).Lastname = nm) := by
  constructor
  · have hres : resolve_contact_name c.FIRSTNAME c.LASTNAME c.NAME =
        ("", pyStrip (c.LASTNAME.getD "")) := by
      simp [resolve_contact_name, h2, h3]
    unfold process_priority_contact
    simp only [h1, Bool.not_true, Bool.false_eq_true, if_false, hres, h4]
    have hmiss : (("" == "") && (pyStrip (c.LASTNAME.getD "") == "") &&
        (pyStrip (c.NAME.getD "") == "")) = false := by
      simp [h3]
    rw [if_neg (by simp [hmiss, h3])]
    rcases hlook : contactMap.lookup (customerId,
        pyLower (pyStrip ("" ++ " " ++ pyStrip (c.LASTNAME.getD "")))) with _ | ec
    · refine ⟨_, rfl, ?_, ?_⟩
      · simp [create_contact_fields]
      · simp [create_contact_fields, h3]
    · refine ⟨_, rfl, ?_, ?_⟩
      · simp [update_contact_fields]
      · simp [update_contact_fields, h3]
  · intro email last nm positiondes phone mobile
    exact ⟨rfl, rfl, rfl, rfl⟩

/-- C7: a contact creation answered with HTTP 409 (duplicate email) is
not fatal and does not raise; it appends exactly one row (target
customer id, source external id, email) to the CSV side channel, writing
the header exactly once and only when the file does not yet exist, and
the contact loop still processes every contact of the batch. -/
theorem C7_duplicate_email_conflict :
    (∀ (env : ContactSyncEnv) (file : Option (List (List String)))
       (customerId : Nat) (priorityCustomerId : String) (p : ContactPayload),
       env.createStatus customerId p = 409 →
       create_atera_contact env file customerId priorityCustomerId p =
         (some ((match file with
                 | none => [csv_header]
                 | some rows => rows) ++
                [[natToStr customerId, priorityCustomerId, p.Email]]), false)) ∧
    (∀ (env : ContactSyncEnv) (custMap : List (String × Nat))
       (contactMap : List ((Nat × String) × AteraContact))
       (file : Option (List (List String))) (cs : List PriorityContact),
       ((contacts_loop env custMap contactMap file cs).2).length = cs.length) := by
  constructor
  · intro env file customerId priorityCustomerId p h
    simp [create_atera_contact, log_failed_duplicate_email, h]
  · intro env custMap contactMap file cs
    induction cs generalizing file with
    | nil => rfl
    | cons c rest ih => simp [contacts_loop, ih]

/-- A contact whose name fields are all empty (mirrors the third record
of the repository's `test_sync_contacts_create_partial`). -/
def contact_empty_names : PriorityContact where
  CUSTNAME := some "CUST001"
  CUSTDES := some "Customer One"
  EMAIL := some ""
  NAME := some ""
  FIRSTNAME := some ""
  LASTNAME := some ""
  POSITIONDES := some "Technician"
  PHONENUM := some ""
  CELLPHONE := some ""

/-- Cross-reference map with the single entry used by the contact
examples. -/
def cust_map_one : List (String × Nat) := [("CUST001", 1)]

theorem C8_contact_name_fallback_witness :
    pyStrip (contact_empty_names.FIRSTNAME.getD "") = "" ∧
    pyStrip (contact_empty_names.LASTNAME.getD "") = "" ∧
    pyStrip (contact_empty_names.NAME.getD "") = "" ∧
    (process_priority_contact cust_map_one [] contact_empty_names).payload? = none ∧
    process_priority_contact cust_map_one [] contact_empty_names = .skippedMissingName :=
  ⟨rfl, rfl, rfl,
   (C8_contact_name_fallback.2.2 cust_map_one [] contact_empty_names rfl rfl rfl).1,
   (C8_contact_name_fallback.2.2 cust_map_one [] contact_empty_names rfl rfl rfl).2
     (by decide)⟩

theorem C9_synthesized_email_witness :
    (1 : Nat) ≠ 2 ∧
    synthesize_email "Alice" "Alice" 1 ≠ synthesize_email "Alice" "Alice" 2 :=
  ⟨by decide, C9_synthesized_email.2.2.1 "Alice" "Alice" 1 2 (by decide)⟩

/-- A contact with a blank first name and non-blank last name (mirrors
the `Bob Smith` record of `test_sync_contacts_create_partial`). -/
def contact_bob : PriorityContact where
  CUSTNAME := some "CUST001"
  CUSTDES := some "Customer One"
  EMAIL := some "bob@example.com"
  NAME := some "Bob Smith"
  FIRSTNAME := some ""
  LASTNAME := some "Smith"
  POSITIONDES := some "Engineer"
  PHONENUM := some "555-1234"
  CELLPHONE := some ""

theorem C10_payload_name_fallback_witness :
    truthyStr contact_bob.CUSTNAME = true ∧
    pyStrip (contact_bob.FIRSTNAME.getD "") = "" ∧
    pyStrip (contact_bob.LASTNAME.getD "") ≠ "" ∧
    truthyNat (cust_map_one.lookup (contact_bob.CUSTNAME.getD "")) = some 1 ∧
    (∃ p, (process_priority_contact cust_map_one [] contact_bob).payload? = some p ∧
       p.Firstname = contact_bob.NAME ∧
       p.Lastname = some (pyStrip (contact_bob.LASTNAME.getD ""))) :=
  ⟨rfl, rfl, by decide, rfl,
   (C10_payload_name_fallback cust_map_one [] contact_bob 1 rfl rfl (by decide) rfl).1⟩

/-- Environment in which every contact creation is answered with the
duplicate-email conflict status. -/
def env_dup_email : ContactSyncEnv where
  createStatus := fun _ _ => 409
  updateStatus := fun _ _ => 200

/-- The payload `sync_contacts` builds for `contact_bob` under Atera
customer id `1`. -/
def sample_contact_payload : ContactPayload where
  Email := "bob@example.com"
  Firstname := some "Bob Smith"
  Lastname := some "Smith"
  JobTitle := some "Engineer"
  Phone := some "555-1234"
  MobilePhone := none

theorem C7_duplicate_email_conflict_witness :
    env_dup_email.createStatus 5 sample_contact_payload = 409 ∧
    create_atera_contact env_dup_email none 5 "CUST001" sample_contact_payload =
      (some ((match (none : Option (List (List String))) with
              | none => [csv_header]
              | some rows => rows) ++
             [[natToStr 5, "CUST001", sample_contact_payload.Email]]), false) :=
  ⟨rfl,
   C7_duplicate_email_conflict.1 env_dup_email none 5 "CUST001" sample_contact_payload rfl⟩

/-! ## Theorems about the customer sync -/

/-- When every mutation succeeds, the per-customer body follows the
id-then-name upsert decision and raises nothing. -/
theorem process_customer_success (env : CustomerSyncEnv)
    (idMap nameMap : List (String × Nat)) (c : PriorityCustomer)
    (hupd : ∀ i p, ok2xx (env.updateStatus i p) = true)
    (hfld : ∀ i v, ok2xx (env.fieldStatus i v) = true)
    (hcre : ∀ p, ok2xx (env.createStatus p) = true) :
    process_priority_customer env idMap nameMap c =
      match truthyNat (idMap.lookup c.CUSTNAME) with
      | some customerId =>
        ([.putCustomer customerId (customer_payload c),
          .putCustomField customerId "Priority Customer Number" c.CUSTNAME], false)
      | none =>
        match truthyNat (nameMap.lookup (pyLower (pyStrip c.CUSTDES))) with
        | some customerId =>
          ([.putCustomer customerId (customer_payload c),
            .putCustomField customerId "Priority Customer Number" c.CUSTNAME], false)
        | none =>
          ([.postCustomer (customer_payload c),
            .putCustomField (env.createActionId (customer_payload c))
              "Priority Customer Number" c.CUSTNAME], false) := by
  unfold process_priority_customer update_atera_customer create_atera_customer
  cases hid : truthyNat (idMap.lookup c.CUSTNAME) with
  | some customerId => simp [hupd, hfld]
  | none =>
    cases hnm : truthyNat (nameMap.lookup (pyLower (pyStrip c.CUSTDES))) with
    | some customerId => simp [hupd, hfld]
    | none => simp [hcre, hfld]

/-- When every mutation succeeds, no per-customer body raises. -/
theorem process_customer_success_snd (env : CustomerSyncEnv)
    (idMap nameMap : List (String × Nat)) (c : PriorityCustomer)
    (hupd : ∀ i p, ok2xx (env.updateStatus i p) = true)
    (hfld : ∀ i v, ok2xx (env.fieldStatus i v) = true)
    (hcre : ∀ p, ok2xx (env.createStatus p) = true) :
    (process_priority_customer env idMap nameMap c).2 = false := by
  rw [process_customer_success env idMap nameMap c hupd hfld hcre]
  cases truthyNat (idMap.lookup c.CUSTNAME) with
  | some customerId => rfl
  | none =>
    cases truthyNat (nameMap.lookup (pyLower (pyStrip c.CUSTDES))) with
    | some customerId => rfl
    | none => rfl

/-- C1: for every source customer processed by the customer sync, the
reconciler first looks its id up in the cross-reference map
(`Priority Customer Number` = `CUSTNAME`); failing that it falls back to
a case-insensitive exact match on the trimmed display name (`CUSTDES`);
a hit by either is updated and then has the cross-reference field
rewritten to `CUSTNAME`, and a miss by both is created and then has the
cross-reference field written; every source customer of the batch is
processed this way when the mutations succeed. -/
theorem C1_customer_upsert_matching (env : CustomerSyncEnv)
    (acs : List AteraCustomer) (pcs : List PriorityCustomer)
    (hupd : ∀ i p, ok2xx (env.updateStatus i p) = true)
    (hfld : ∀ i v, ok2xx (env.fieldStatus i v) = true)
    (hcre : ∀ p, ok2xx (env.createStatus p) = true) :
    (∀ c : PriorityCustomer,
      process_priority_customer env (build_id_map acs) (build_name_map acs) c =
        match truthyNat ((build_id_map acs).lookup c.CUSTNAME) with
        | some customerId =>
          ([.putCustomer customerId (customer_payload c),
            .putCustomField customerId "Priority Customer Number" c.CUSTNAME], false)
        | none =>
          match truthyNat ((build_name_map acs).lookup (pyLower (pyStrip c.CUSTDES))) with
          | some customerId =>
            ([.putCustomer customerId (customer_payload c),
              .putCustomField customerId "Priority Customer Number" c.CUSTNAME], false)
          | none =>
            ([.postCustomer (customer_payload c),
              .putCustomField (env.createActionId (customer_payload c))
                "Priority Customer Number" c.CUSTNAME], false)) ∧
    sync_customers_model env acs pcs =
      ((pcs.map fun c =>
        (process_priority_customer env (build_id_map acs) (build_name_map acs) c).1).flatten,
       false) := by
  constructor
  · intro c
    exact process_customer_success env (build_id_map acs) (build_name_map acs) c hupd hfld hcre
  · unfold sync_customers_model
    induction pcs with
    | nil => rfl
    | cons c rest ih =>
      simp only [customers_loop,
        process_customer_success_snd env (build_id_map acs) (build_name_map acs) c hupd hfld hcre,
        Bool.false_eq_true, if_false, ih, List.map_cons, List.flatten_cons]

/-- Environment in which every mutation succeeds (updates 200, creates
201 with `ActionID` 123). -/
def env_all_ok : CustomerSyncEnv where
  updateStatus := fun _ _ => 200
  fieldStatus := fun _ _ => 200
  createStatus := fun _ => 201
  createActionId := fun _ => 123

/-- The single Atera customer of the repository's
`test_sync_customers_update`, matched by name only. -/
def atera_one : List AteraCustomer := [⟨1, some "Customer One", none⟩]

/-- The Priority customer of `test_sync_customers_update`. -/
def cust_one_named : PriorityCustomer where
  CUSTNAME := "CUST001"
  CUSTDES := "Customer One"

theorem C1_customer_upsert_matching_witness :
    process_priority_customer env_all_ok (build_id_map atera_one)
        (build_name_map atera_one) cust_one_named =
      ([.putCustomer 1 (customer_payload cust_one_named),
        .putCustomField 1 "Priority Customer Number" "CUST001"], false) ∧
    sync_customers_model env_all_ok atera_one [cust_one_named] =
      ([.putCustomer 1 (customer_payload cust_one_named),
        .putCustomField 1 "Priority Customer Number" "CUST001"], false) := by
  have h := C1_customer_upsert_matching env_all_ok atera_one [cust_one_named]
    (fun _ _ => rfl) (fun _ _ => rfl) (fun _ => rfl)
  constructor
  · rw [h.1 cust_one_named]
    decide
  · rw [h.2]
    decide

/-- The recent and stale Priority customers of the repository's
`test_sync_customers_filtered_by_date`: `MARH_UDATE` of the second lies
ten days before the run, far outside `PULL_PERIOD_DAYS = 2`. -/
def recent_customer : PriorityCustomer where
  CUSTNAME := "RECENT001"
  CUSTDES := "Recent Customer"
  PHONE := some "111-222-3333"
  ADDRESS := some "123 Main St"
  MARH_UDATE := some "2026-10-12T00:00:00+00:00"

/-- See `recent_customer`: this record's last-modified timestamp is ten
days old. -/
def old_customer : PriorityCustomer where
  CUSTNAME := "OLD001"
  CUSTDES := "Old Customer"
  PHONE := some "999-888-7777"
  ADDRESS := some "999 Old Rd"
  MARH_UDATE := some "2026-10-02T00:00:00+00:00"

/-- C2: the customer sync applies no pull-window filter at all — it
creates the stale customer exactly like the recent one.  The repository's
own test `test_sync_customers_filtered_by_date` asserts that only one
creation happens on this input, but `get_priority_customers` neither
selects nor compares `MARH_UDATE`, so both customers are processed. -/
theorem C2_stale_customer_still_processed :
    sync_customers_model env_all_ok [] [recent_customer, old_customer] =
      ([.postCustomer (customer_payload recent_customer),
        .putCustomField 123 "Priority Customer Number" "RECENT001",
        .postCustomer (customer_payload old_customer),
        .putCustomField 123 "Priority Customer Number" "OLD001"], false) := by
  decide

/-- Environment in which every customer update is answered 500. -/
def env_update_fails : CustomerSyncEnv where
  updateStatus := fun _ _ => 500
  fieldStatus := fun _ _ => 200
  createStatus := fun _ => 201
  createActionId := fun _ => 7

/-- Two Atera customers carrying the cross-references `C1` and `C2`. -/
def atera_two : List AteraCustomer :=
  [⟨1, some "Customer One", some "C1"⟩, ⟨2, some "Customer Two", some "C2"⟩]

/-- Priority customer matching `atera_two`'s first entry by id. -/
def cust_c1 : PriorityCustomer where
  CUSTNAME := "C1"
  CUSTDES := "Customer One"

/-- Priority customer matching `atera_two`'s second entry by id. -/
def cust_c2 : PriorityCustomer where
  CUSTNAME := "C2"
  CUSTDES := "Customer Two"

/-- C2/C3 evidence against per-record isolation: with the first
customer's update answered 500, the customer sync stops at the raised
exception — the trace holds only the first PUT and the second customer
is never processed, refuting the claim that the reconciler continues to
the next source customer. -/
theorem C3_counterexample_abort_on_failure :
    sync_customers_model env_update_fails atera_two [cust_c1, cust_c2] =
      ([.putCustomer 1 (customer_payload cust_c1)], true) := by
  decide

/-- C3 (amended): a non-2xx response from a mutation raises out of
`sync_customers` — the loop result is the traces of the records before
the failing one plus the failing record's calls, independent of every
record after it, and the sync ends aborted. -/
theorem C3_failure_aborts_customer_sync (env : CustomerSyncEnv)
    (idMap nameMap : List (String × Nat)) (pre : List PriorityCustomer)
    (c : PriorityCustomer) (post : List PriorityCustomer)
    (hpre : ∀ x ∈ pre, (process_priority_customer env idMap nameMap x).2 = false)
    (hc : (process_priority_customer env idMap nameMap c).2 = true) :
    customers_loop env idMap nameMap (pre ++ c :: post) =
      ((pre.map fun x => (process_priority_customer env idMap nameMap x).1).flatten ++
        (process_priority_customer env idMap nameMap c).1, true) := by
  induction pre with
  | nil =>
    simp only [List.nil_append, List.map_nil, List.flatten_nil]
    simp [customers_loop, hc]
  | cons x pre ih =>
    have hx : (process_priority_customer env idMap nameMap x).2 = false :=
      hpre x (by simp)
    have hrest := ih (fun y hy => hpre y (by simp [hy]))
    simp only [List.cons_append, customers_loop, hx, Bool.false_eq_true, if_false,
      List.append_eq, hrest, List.map_cons, List.flatten_cons, List.append_assoc]

theorem C3_failure_aborts_customer_sync_witness :
    (process_priority_customer env_update_fails (build_id_map atera_two)
        (build_name_map atera_two) cust_c1).2 = true ∧
    customers_loop env_update_fails (build_id_map atera_two) (build_name_map atera_two)
        ([] ++ cust_c1 :: [cust_c2]) =
      ((([] : List PriorityCustomer).map fun x =>
          (process_priority_customer env_update_fails (build_id_map atera_two)
            (build_name_map atera_two) x).1).flatten ++
        (process_priority_customer env_update_fails (build_id_map atera_two)
          (build_name_map atera_two) cust_c1).1, true) :=
  ⟨by decide,
   C3_failure_aborts_customer_sync env_update_fails (build_id_map atera_two)
     (build_name_map atera_two) [] cust_c1 [cust_c2] (by simp) (by decide)⟩

/-! ## Theorems about the pagination loops -/

/-- A remote that always reports a wrong page count, an empty item list
and a live `nextLink`. -/
def adversarial_pages : Nat → ApiPage := fun _ => ⟨[], 0, some "next"⟩

/-- C4 counterexample: on a remote whose pages are all empty but carry a
`nextLink`, the contacts loop never stops (it is still running after 100
pages), while the customers loop on the same remote stops at the first
empty page — so an empty page is not an unconditional stop for every
loop. -/
theorem C4_counterexample_contacts_loop :
    get_atera_contacts_pages adversarial_pages 100 1 [] = none ∧
    get_atera_customers_pages adversarial_pages 1 1 [] = some [] := by
  decide

/-- C4 (amended): the customers, contracts and tickets pagination loops
stop unconditionally on a page with an empty item list, but the contacts
loop stops only on a falsy `nextLink` — on an empty page whose
`nextLink` is truthy it moves on to the next page. -/
theorem C4_empty_page_stops (pages : Nat → ApiPage) (keep : Nat → Bool)
    (fuel page : Nat) (acc : List Nat)
    (hempty : (pages page).items = []) :
    get_atera_customers_pages pages (fuel + 1) page acc = some acc ∧
    get_atera_contracts_pages pages (fuel + 1) page acc = some acc ∧
    get_atera_tickets_pages keep pages (fuel + 1) page acc = some acc ∧
    (truthyStr (pages page).nextLink = true →
      get_atera_contacts_pages pages (fuel + 1) page acc =
        get_atera_contacts_pages pages fuel (page + 1) acc) := by
  refine ⟨?_, ?_, ?_, ?_⟩
  · simp [get_atera_customers_pages, hempty]
  · simp [get_atera_contracts_pages, hempty]
  · simp [get_atera_tickets_pages, hempty]
  · intro hnext
    simp [get_atera_contacts_pages, hempty, hnext]

theorem C4_empty_page_stops_witness :
    (adversarial_pages 1).items = [] ∧
    get_atera_customers_pages adversarial_pages 1 1 [] = some [] ∧
    truthyStr (adversarial_pages 1).nextLink = true ∧
    get_atera_contacts_pages adversarial_pages 1 1 [] =
      get_atera_contacts_pages adversarial_pages 0 2 [] :=
  ⟨rfl, (C4_empty_page_stops adversarial_pages (fun _ => true) 0 1 [] rfl).1, rfl,
   (C4_empty_page_stops adversarial_pages (fun _ => true) 0 1 [] rfl).2.2.2 rfl⟩

/-! ## Theorems about the contract sync -/

/-- C5: a contract whose own status is the cancelled code is never
created (neither by the sync loop nor by `create_atera_contract`'s own
guard), even if its owning customer is active; and a contract whose
owning customer's status is not the active code is never created, even
if the contract itself is active. -/
theorem C5_contract_filtering
    (pmap : List (String × PriorityCustomer)) (cmap : List (String × Nat))
    (contractsOf : Nat → List AteraContract) (docnoFieldOf : Nat → Option String)
    (ct : PriorityContract) :
    (ct.STATDES = some "מבוטל" →
      (process_priority_contract pmap cmap contractsOf docnoFieldOf ct).isCreated = false ∧
      ∀ customerId, create_atera_contract_request customerId ct = none) ∧
    (∀ pc, pmap.lookup (ct.CUSTDES.getD "") = some pc →
      pc.STATDES ≠ some "פעיל" →
      (process_priority_contract pmap cmap contractsOf docnoFieldOf ct).isCreated = false) := by
  constructor
  · intro hcanc
    constructor
    · unfold process_priority_contract
      split
      · rfl
      · cases pmap.lookup (ct.CUSTDES.getD "") with
        | none => rfl
        | some pc =>
          simp only [hcanc, beq_self_eq_true, if_true]
          split
          · rfl
          · rfl
    · intro customerId
      simp [create_atera_contract_request, contract_is_active, hcanc]
  · intro pc hl hst
    unfold process_priority_contract
    split
    · rfl
    · rw [hl]
      simp only [bne_iff_ne, ne_eq, hst, not_false_eq_true, if_true]
      rfl

/-- C6: for a source contract that passes the filters and resolves to an
Atera customer id, the reconciler compares that customer's existing
contracts' `Priority Contract Number` custom field against `DOCNO`: a hit
means no creation (skip), and otherwise exactly one creation is issued
for it. -/
theorem C6_contract_existence_check
    (pmap : List (String × PriorityCustomer)) (cmap : List (String × Nat))
    (contractsOf : Nat → List AteraContract) (docnoFieldOf : Nat → Option String)
    (ct : PriorityContract) (pc : PriorityCustomer) (customerId : Nat)
    (h1 : truthyStr ct.CUSTNAME = true)
    (h2 : truthyStr ct.DOCNO = true)
    (h3 : pmap.lookup (ct.CUSTDES.getD "") = some pc)
    (h4 : pc.STATDES = some "פעיל")
    (h5 : ct.STATDES ≠ some "מבוטל")
    (h6 : truthyNat (cmap.lookup (ct.CUSTNAME.getD "")) = some customerId) :
    ((contractsOf customerId).any
        (fun a => docnoFieldOf a.ContractID == some (ct.DOCNO.getD "")) = true →
      ∃ ateraContractId,
        process_priority_contract pmap cmap contractsOf docnoFieldOf ct =
          .skippedExisting ateraContractId) ∧
    ((contractsOf customerId).any
        (fun a => docnoFieldOf a.ContractID == some (ct.DOCNO.getD "")) = false →
      process_priority_contract pmap cmap contractsOf docnoFieldOf ct =
        .created customerId) := by
  have hact : (pc.STATDES != some "פעיל") = false := by simp [h4]
  have hcanc : (ct.STATDES == some "מבוטל") = false := by simp [h5]
  constructor
  · intro hany
    cases hf : (contractsOf customerId).find?
        (fun a => docnoFieldOf a.ContractID == some (ct.DOCNO.getD "")) with
    | none =>
      exfalso
      rcases List.any_eq_true.mp hany with ⟨a, ha, hpa⟩
      exact absurd hpa (by simpa using List.find?_eq_none.mp hf a ha)
    | some a =>
      refine ⟨a.ContractID, ?_⟩
      simp [process_priority_contract, h1, h2, h3, hact, hcanc, h6, hf]
  · intro hany
    have hf : (contractsOf customerId).find?
        (fun a => docnoFieldOf a.ContractID == some (ct.DOCNO.getD "")) = none := by
      rw [List.find?_eq_none]
      intro a ha
      rcases List.any_eq_false.mp hany a ha with h
      simp at h
      simp [h]
    simp [process_priority_contract, h1, h2, h3, hact, hcanc, h6, hf]

/-- An active Priority customer as `sync_contracts` looks it up. -/
def priority_cust_active : PriorityCustomer where
  CUSTNAME := "CUST001"
  CUSTDES := "Customer One"
  STATDES := some "פעיל"

/-- An inactive Priority customer. -/
def priority_cust_inactive : PriorityCustomer where
  CUSTNAME := "CUST001"
  CUSTDES := "Customer One"
  STATDES := some "לא פעיל"

/-- A cancelled Priority contract. -/
def contract_cancelled : PriorityContract where
  CUSTNAME := some "CUST001"
  CUSTDES := some "Customer One"
  DOCNO := some "CONTRACT001"
  STATDES := some "מבוטל"
  UNI_DESC := some "Sample Contract"

/-- An active Priority contract. -/
def contract_active : PriorityContract where
  CUSTNAME := some "CUST001"
  CUSTDES := some "Customer One"
  DOCNO := some "CONTRACT001"
  STATDES := some "Active"
  UNI_DESC := some "Sample Contract"

/-- Cross-reference map resolving `CUST001` to Atera customer 999. -/
def cmap_999 : List (String × Nat) := [("CUST001", 999)]

/-- One existing Atera contract for every customer. -/
def contractsOf_one : Nat → List AteraContract := fun _ => [⟨1234⟩]

/-- Contract custom-field oracle: contract 1234 carries `CONTRACT001`. -/
def docnoFieldOf_hit : Nat → Option String :=
  fun i => if i == 1234 then some "CONTRACT001" else none

/-- No existing Atera contracts. -/
def contractsOf_empty : Nat → List AteraContract := fun _ => []

/-- Contract custom-field oracle with no values. -/
def docnoFieldOf_none : Nat → Option String := fun _ => none

theorem C5_contract_filtering_witness :
    contract_cancelled.STATDES = some "מבוטל" ∧
    (process_priority_contract (build_priority_customer_map [priority_cust_active])
        cmap_999 contractsOf_empty docnoFieldOf_none contract_cancelled).isCreated = false ∧
    create_atera_contract_request 999 contract_cancelled = none ∧
    priority_cust_inactive.STATDES ≠ some "פעיל" ∧
    (process_priority_contract (build_priority_customer_map [priority_cust_inactive])
        cmap_999 contractsOf_empty docnoFieldOf_none contract_active).isCreated = false :=
  ⟨rfl,
   ((C5_contract_filtering (build_priority_customer_map [priority_cust_active])
      cmap_999 contractsOf_empty docnoFieldOf_none contract_cancelled).1 rfl).1,
   ((C5_contract_filtering (build_priority_customer_map [priority_cust_active])
      cmap_999 contractsOf_empty docnoFieldOf_none contract_cancelled).1 rfl).2 999,
   by decide,
   (C5_contract_filtering (build_priority_customer_map [priority_cust_inactive])
      cmap_999 contractsOf_empty docnoFieldOf_none contract_active).2
     priority_cust_inactive (by decide) (by decide)⟩

theorem C6_contract_existence_check_witness :
    (contractsOf_one 999).any
        (fun a => docnoFieldOf_hit a.ContractID == some (contract_active.DOCNO.getD "")) = true ∧
    (∃ ateraContractId,
      process_priority_contract (build_priority_customer_map [priority_cust_active])
          cmap_999 contractsOf_one docnoFieldOf_hit contract_active =
        .skippedExisting ateraContractId) ∧
    process_priority_contract (build_priority_customer_map [priority_cust_active])
        cmap_999 contractsOf_empty docnoFieldOf_none contract_active = .created 999 :=
  ⟨by decide,
   (C6_contract_existence_check (build_priority_customer_map [priority_cust_active])
      cmap_999 contractsOf_one docnoFieldOf_hit contract_active priority_cust_active 999
      rfl rfl (by decide) rfl (by decide) rfl).1 (by decide),
   (C6_contract_existence_check (build_priority_customer_map [priority_cust_active])
      cmap_999 contractsOf_empty docnoFieldOf_none contract_active priority_cust_active 999
      rfl rfl (by decide) rfl (by decide) rfl).2 (by decide)⟩

end ErpSync
